import Mathlib

/-!
Verification of mini-projet-gestion-users: session gate and user CRUD handlers.

A shallow embedding of `app.js`.  Each Express route handler is a program that
either answers at once or issues one parameterised statement through
`db.query` and answers from its outcome.  The record store behind `db.query`
is not part of `app.js`; handlers are therefore interpreted against an
arbitrary query gateway, and the MySQL table `utilisateur` is modelled
separately for the properties that talk about stored records.
-/

namespace GestionUsers

/-! ## JavaScript values carried by request bodies -/

/-- The JavaScript values a parsed form or JSON body can hold in one field:
an absent field reads as `undefined`.  Arrays and nested objects (always
truthy) are left out. -/
inductive JsValue where
  | undefined
  | null
  | bool (b : Bool)
  | num (n : Int)
  | str (s : String)
  deriving DecidableEq, Repr

/-- JavaScript truthiness, the test behind `!x` and `if (x)`. -/
def JsValue.truthy : JsValue → Bool
  | .undefined => false
  | .null => false
  | .bool b => b
  | .num n => n != 0
  | .str s => s != ""

/-! ## Records, sessions, responses -/

/-- A row of the table `utilisateur`. -/
structure UserRecord where
  id : Nat
  prenom : String
  nom : String
  login : String
  password : String
  role : String
  deriving DecidableEq, Repr

/-- The object stored in `req.session.user` by the login handler. -/
structure SessionUser where
  id : Nat
  prenom : String
  nom : String
  role : String
  deriving DecidableEq, Repr

/-- The session of a request: `req.session.user` is either unset or the
object written at login. -/
structure Session where
  user : Option SessionUser
  deriving DecidableEq, Repr

/-- The result of `req.session.destroy`: later requests carrying the same
cookie get a fresh session without a user. -/
def Session.destroy (_sess : Session) : Session :=
  { user := none }

/-- A JSON response body. -/
inductive JsonBody where
  | error (msg : String)
  | message (msg : String)
  | rows (rs : List UserRecord)
  deriving DecidableEq, Repr

/-- An HTTP response. -/
inductive Response where
  | redirect (location : String)
  | json (status : Nat) (body : JsonBody)
  | send (status : Nat) (text : String)
  | sendFile (file : String)
  deriving DecidableEq, Repr

/-- The error thrown by a failed `db.query`; `code` is `err.code`. -/
structure DbError where
  code : Option String
  detail : String
  deriving DecidableEq, Repr

/-- What a handler leaves behind: the response and the session. -/
structure Outcome where
  response : Response
  session : Session
  deriving DecidableEq, Repr

/-- A statement handed to `db.query`: the SQL text and the bound values. -/
structure Statement where
  sql : String
  params : List JsValue
  deriving DecidableEq, Repr

/-- A handler run: it answers at once (`done`), or awaits one read statement
(`select`, resolved to rows) or one write statement (`exec`), and answers
from the outcome of that statement. -/
inductive Prog where
  | done (o : Outcome)
  | select (stmt : Statement) (k : Except DbError (List UserRecord) → Outcome)
  | exec (stmt : Statement) (k : Except DbError Unit → Outcome)

/-! ## The handlers of `app.js` -/

/-- The five-field body of `POST /api/users` and `PUT /api/users/:id`. -/
structure UserBody where
  prenom : JsValue
  nom : JsValue
  login : JsValue
  password : JsValue
  role : JsValue
  deriving DecidableEq, Repr

/-- The body of `POST /login`. -/
structure LoginBody where
  login : JsValue
  password : JsValue
  deriving DecidableEq, Repr

/-- The handler of `app.post('/login')`. -/
def postLogin (body : LoginBody) (sess : Session) : Prog :=
  .select ⟨"SELECT * FROM utilisateur WHERE login = ? AND password = ?",
      [body.login, body.password]⟩ fun r =>
    match r with
    | .ok [] => ⟨.redirect "/login?error=1", sess⟩
    | .ok (user :: _) =>
        ⟨.redirect "/users",
          { sess with
            user := some (SessionUser.mk user.id user.prenom user.nom user.role) }⟩
    | .error _ => ⟨.send 500 "Erreur serveur", sess⟩

/-- The handler of `app.get('/logout')`. -/
def getLogout (sess : Session) : Prog :=
  .done ⟨.redirect "/login", sess.destroy⟩

/-- The middleware `requireAuth`, with `next` the guarded handler. -/
def requireAuth (sess : Session) (next : Prog) : Prog :=
  if sess.user.isNone then .done ⟨.redirect "/login", sess⟩ else next

/-- The handler of `app.get('/users')`, behind the guard. -/
def getUsersPage (sess : Session) : Prog :=
  .done ⟨.sendFile "public/users.html", sess⟩

/-- The handler of `app.get('/api/users')`, behind the guard; `query` is
`req.query.search`. -/
def getApiUsers (query : Option String) (sess : Session) : Prog :=
  let search := match query with
    | some s => if s != "" then s else ""
    | none => ""
  let k : Except DbError (List UserRecord) → Outcome := fun r =>
    match r with
    | .ok rows => ⟨.json 200 (.rows rows), sess⟩
    | .error _ => ⟨.json 500 (.error "Erreur serveur"), sess⟩
  if search != "" then
    let like := "%" ++ search ++ "%"
    .select ⟨"SELECT * FROM utilisateur" ++ " WHERE prenom LIKE ? OR nom LIKE ? OR login LIKE ?",
      [.str like, .str like, .str like]⟩ k
  else
    .select ⟨"SELECT * FROM utilisateur", []⟩ k

/-- The `catch` branch shared by the create and update handlers. -/
def writeFailure (err : DbError) : Response :=
  if err.code = some "ER_DUP_ENTRY" then .json 400 (.error "Ce login existe déjà")
  else .json 500 (.error "Erreur serveur")

/-- The presence test of the create and update handlers:
`!prenom || !nom || !login || !password || !role`. -/
def UserBody.missingField (body : UserBody) : Bool :=
  !body.prenom.truthy || !body.nom.truthy || !body.login.truthy ||
    !body.password.truthy || !body.role.truthy

/-- The handler of `app.post('/api/users')`, behind the guard. -/
def postApiUsers (body : UserBody) (sess : Session) : Prog :=
  if body.missingField then
    .done ⟨.json 400 (.error "Tous les champs sont obligatoires"), sess⟩
  else
    .exec ⟨"INSERT INTO utilisateur (prenom, nom, login, password, role) VALUES (?, ?, ?, ?, ?)",
        [body.prenom, body.nom, body.login, body.password, body.role]⟩ fun r =>
      match r with
      | .ok _ => ⟨.json 201 (.message "Utilisateur créé"), sess⟩
      | .error err => ⟨writeFailure err, sess⟩

/-- The handler of `app.delete('/api/users/:id')`, behind the guard; `id` is
`req.params.id`, the text of the path segment. -/
def deleteApiUser (id : String) (sess : Session) : Prog :=
  .exec ⟨"DELETE FROM utilisateur WHERE id = ?", [.str id]⟩ fun r =>
    match r with
    | .ok _ => ⟨.json 200 (.message "Utilisateur supprimé"), sess⟩
    | .error _ => ⟨.json 500 (.error "Erreur serveur"), sess⟩

/-- The handler of `app.put('/api/users/:id')`, behind the guard; `id` is
`req.params.id`, the text of the path segment. -/
def putApiUser (id : String) (body : UserBody) (sess : Session) : Prog :=
  if body.missingField then
    .done ⟨.json 400 (.error "Tous les champs sont obligatoires"), sess⟩
  else
    .exec ⟨"UPDATE utilisateur SET prenom = ?, nom = ?, login = ?, password = ?, role = ? WHERE id = ?",
        [body.prenom, body.nom, body.login, body.password, body.role, .str id]⟩ fun r =>
      match r with
      | .ok _ => ⟨.json 200 (.message "Utilisateur mis à jour"), sess⟩
      | .error err => ⟨writeFailure err, sess⟩

/-! ## Routing -/

/-- A request to one of the routes registered with `requireAuth`. -/
inductive GuardedRequest where
  | usersPage
  | listUsers (search : Option String)
  | createUser (body : UserBody)
  | updateUser (id : String) (body : UserBody)
  | deleteUser (id : String)
  deriving DecidableEq, Repr

/-- The handler registered behind the guard for each guarded route. -/
def GuardedRequest.handler : GuardedRequest → Session → Prog
  | .usersPage => getUsersPage
  | .listUsers search => getApiUsers search
  | .createUser body => postApiUsers body
  | .updateUser id body => putApiUser id body
  | .deleteUser id => deleteApiUser id

/-- A guarded route as Express runs it: `requireAuth`, then the handler. -/
def GuardedRequest.route (req : GuardedRequest) (sess : Session) : Prog :=
  requireAuth sess (req.handler sess)

/-- The requests that touch the session or sit behind the guard. -/
inductive Request where
  | login (body : LoginBody)
  | logout
  | guarded (req : GuardedRequest)
  deriving DecidableEq, Repr

/-- The program Express runs for a request. -/
def Request.route : Request → Session → Prog
  | .login body => postLogin body
  | .logout => getLogout
  | .guarded req => req.route

/-! ## Running a handler against a query gateway -/

/-- The promise interface of `db.js`: reads return rows, writes return the
next store state, and either may fail with an error. -/
structure Gateway (σ : Type) where
  select : σ → Statement → Except DbError (List UserRecord)
  exec : σ → Statement → Except DbError σ

/-- The observable result of serving one request. -/
structure Served (σ : Type) where
  response : Response
  session : Session
  store : σ
  trace : List Statement

/-- Runs a handler: a failed statement leaves the store as it was. -/
def run {σ : Type} (db : Gateway σ) (st : σ) : Prog → Served σ
  | .done o => ⟨o.response, o.session, st, []⟩
  | .select stmt k =>
      let o := k (db.select st stmt)
      ⟨o.response, o.session, st, [stmt]⟩
  | .exec stmt k =>
      match db.exec st stmt with
      | .ok st' =>
          let o := k (.ok ())
          ⟨o.response, o.session, st', [stmt]⟩
      | .error err =>
          let o := k (.error err)
          ⟨o.response, o.session, st, [stmt]⟩

/-- Serves a sequence of requests on one session, keeping each response. -/
def serveAll {σ : Type} (db : Gateway σ) :
    Session → σ → List Request → List (Request × Response)
  | _, _, [] => []
  | sess, st, req :: rest =>
      let r := run db st (req.route sess)
      (req, r.response) :: serveAll db r.session r.store rest

/-! ## The table `utilisateur` behind `db.query` -/

/-- Modelled from the spec: the record store, which is a MySQL server outside
the source.  A table state is its rows in storage order and the next
generated identifier. -/
structure Table where
  rows : List UserRecord
  nextId : Nat
  deriving DecidableEq, Repr

/-- Modelled from the spec: the text a bound value denotes for a text column
of the store (absent from the source).  A string denotes itself, a number its
decimal text, a boolean `1` or `0`; `undefined` and `null` bind as SQL NULL. -/
def sqlText : JsValue → Option String
  | .undefined => none
  | .null => none
  | .bool b => some (if b then "1" else "0")
  | .num n => some (toString n)
  | .str s => some s

/-- Modelled from the spec: the number a run of decimal digits denotes after
the digits already read (the store's reading of numerals is absent from the
source); nothing when another character occurs. -/
def decimalDigits : List Char → Nat → Option Nat
  | [], acc => some acc
  | c :: cs, acc =>
      if c.isDigit then decimalDigits cs (10 * acc + (c.toNat - '0'.toNat)) else none

/-- Modelled from the spec: the identifier a bound value denotes for the
generated integer column `id` of the store (absent from the source).  A
number denotes itself when it is not negative; a string denotes the number it
spells in decimal digits, and no identifier when it is empty or holds another
character; any other value denotes none. -/
def sqlId : JsValue → Option Nat
  | .num n => if 0 ≤ n then some n.toNat else none
  | .str s => if s.data = [] then none else decimalDigits s.data 0
  | _ => none

/-- Modelled from the spec: the store's `LIKE` operator (absent from the
source) on character lists, with `%` matching any run of characters and `_`
any single character; every other character matches itself exactly. -/
def like : List Char → List Char → Bool
  | [], t => t.isEmpty
  | c :: p, t =>
      if c = '%' then t.tails.any (fun s => like p s)
      else
        match t with
        | [] => false
        | d :: t' => (c = '_' || c = d) && like p t'

/-- Modelled from the spec: `column LIKE ?` for a bound value, false when
the value binds as NULL. -/
def likeParam (param : JsValue) (column : String) : Bool :=
  match sqlText param with
  | some pattern => like pattern.data column.data
  | none => false

/-- Modelled from the spec: `column = ?` for a text column of the store,
exact equality of texts and false when the value binds as NULL. -/
def eqParam (param : JsValue) (column : String) : Bool :=
  sqlText param = some column

/-- Modelled from the spec: `id = ?` for the identifier column. -/
def idParam (param : JsValue) (id : Nat) : Bool :=
  sqlId param = some id

/-- Modelled from the spec: how the store answers the read statements of
`app.js` (the MySQL server is absent from the source).  Any other statement is
refused as a syntax error. -/
def Table.select (t : Table) (stmt : Statement) : Except DbError (List UserRecord) :=
  if stmt.sql = "SELECT * FROM utilisateur" then
    .ok t.rows
  else if stmt.sql = "SELECT * FROM utilisateur WHERE login = ? AND password = ?" then
    match stmt.params with
    | [login, password] =>
        .ok (t.rows.filter fun r => eqParam login r.login && eqParam password r.password)
    | _ => .error ⟨some "ER_WRONG_ARGUMENTS", "parameter count"⟩
  else if stmt.sql =
      "SELECT * FROM utilisateur WHERE prenom LIKE ? OR nom LIKE ? OR login LIKE ?" then
    match stmt.params with
    | [p1, p2, p3] =>
        .ok (t.rows.filter fun r => likeParam p1 r.prenom || likeParam p2 r.nom ||
          likeParam p3 r.login)
    | _ => .error ⟨some "ER_WRONG_ARGUMENTS", "parameter count"⟩
  else
    .error ⟨some "ER_PARSE_ERROR", stmt.sql⟩

/-- Modelled from the spec: the row an `INSERT` or `UPDATE` of the five text
columns writes under identifier `id`, or nothing when a value binds as NULL. -/
def boundRecord (id : Nat) (prenom nom login password role : JsValue) : Option UserRecord :=
  match sqlText prenom, sqlText nom, sqlText login, sqlText password, sqlText role with
  | some p, some n, some l, some w, some r => some ⟨id, p, n, l, w, r⟩
  | _, _, _, _, _ => none

/-- Modelled from the spec: what `UPDATE ... WHERE id = ?` does to one row:
a row with the identifier gets the five new columns and keeps its identifier,
any other row is kept as it is. -/
def overwrite (id : JsValue) (new r : UserRecord) : UserRecord :=
  if idParam id r.id then ⟨r.id, new.prenom, new.nom, new.login, new.password, new.role⟩
  else r

/-- Modelled from the spec: how the store executes the write statements of
`app.js` (the MySQL server is absent from the source).  `login` is unique: an
`INSERT`, or an `UPDATE` of an existing row, that would give two rows the same
login fails with `ER_DUP_ENTRY` and changes nothing.  `DELETE` and `UPDATE` of
an identifier no row has succeed and change nothing. -/
def Table.exec (t : Table) (stmt : Statement) : Except DbError Table :=
  if stmt.sql =
      "INSERT INTO utilisateur (prenom, nom, login, password, role) VALUES (?, ?, ?, ?, ?)" then
    match stmt.params with
    | [prenom, nom, login, password, role] =>
        match boundRecord t.nextId prenom nom login password role with
        | some new =>
            if t.rows.any (fun r => r.login = new.login) then
              .error ⟨some "ER_DUP_ENTRY", new.login⟩
            else
              .ok { rows := t.rows ++ [new], nextId := t.nextId + 1 }
        | none => .error ⟨some "ER_BAD_NULL_ERROR", "null column"⟩
    | _ => .error ⟨some "ER_WRONG_ARGUMENTS", "parameter count"⟩
  else if stmt.sql = "DELETE FROM utilisateur WHERE id = ?" then
    match stmt.params with
    | [id] => .ok ⟨t.rows.filter (fun r => !idParam id r.id), t.nextId⟩
    | _ => .error ⟨some "ER_WRONG_ARGUMENTS", "parameter count"⟩
  else if stmt.sql =
      "UPDATE utilisateur SET prenom = ?, nom = ?, login = ?, password = ?, role = ? WHERE id = ?"
      then
    match stmt.params with
    | [prenom, nom, login, password, role, id] =>
        match boundRecord 0 prenom nom login password role with
        | some new =>
            if (t.rows.any fun r => idParam id r.id) &&
                (t.rows.any fun r => !idParam id r.id && r.login = new.login) then
              .error ⟨some "ER_DUP_ENTRY", new.login⟩
            else
              .ok ⟨t.rows.map (overwrite id new), t.nextId⟩
        | none => .error ⟨some "ER_BAD_NULL_ERROR", "null column"⟩
    | _ => .error ⟨some "ER_WRONG_ARGUMENTS", "parameter count"⟩
  else
    .error ⟨some "ER_PARSE_ERROR", stmt.sql⟩

/-- Modelled from the spec: the query gateway of `db.js` over the modelled
table. -/
def mysql : Gateway Table :=
  ⟨Table.select, Table.exec⟩

/-- A query gateway whose store cannot be reached: every statement fails with
the connection error code of the driver. -/
def offline : Gateway Table :=
  ⟨fun _ _ => .error ⟨some "ECONNREFUSED", "connect"⟩,
   fun _ _ => .error ⟨some "ECONNREFUSED", "connect"⟩⟩

/-! ## Notions used to state the properties -/

/-- A field value counts as absent or empty when the field is missing, is
JSON `null`, or is the empty string. -/
def JsValue.absentOrEmpty : JsValue → Bool
  | .undefined => true
  | .null => true
  | .str s => s = ""
  | _ => false

/-- Some field of the body is absent or empty. -/
def UserBody.someAbsentOrEmpty (body : UserBody) : Bool :=
  body.prenom.absentOrEmpty || body.nom.absentOrEmpty || body.login.absentOrEmpty ||
    body.password.absentOrEmpty || body.role.absentOrEmpty

/-- The text `x` occurs in `text` as a contiguous substring. -/
def containsText (x text : String) : Prop :=
  x.data <:+: text.data

/-- A record matches a search text literally: its `prenom`, `nom` or `login`
contains the text. -/
def UserRecord.contains (r : UserRecord) (x : String) : Prop :=
  containsText x r.prenom ∨ containsText x r.nom ∨ containsText x r.login

/-- A record holds the submitted credentials: its login and its password are
exactly the submitted texts. -/
def LoginBody.matchesRecord (body : LoginBody) (r : UserRecord) : Bool :=
  decide (sqlText body.login = some r.login ∧ sqlText body.password = some r.password)

/-- A served pair is a successful login: a `POST /login` answered with the
redirect to `/users`. -/
def isLoginSuccess : Request × Response → Bool
  | (.login _, .redirect loc) => loc = "/users"
  | _ => false

instance (x text : String) : Decidable (containsText x text) := by
  unfold containsText
  infer_instance

instance (r : UserRecord) (x : String) : Decidable (r.contains x) := by
  unfold UserRecord.contains
  infer_instance

/-- The session-user projection `{id, prenom, nom, role}` of a record. -/
def UserRecord.sessionUser (r : UserRecord) : SessionUser :=
  ⟨r.id, r.prenom, r.nom, r.role⟩

/-- The record a populated body describes under identifier `id`. -/
def UserBody.record (body : UserBody) (id : Nat) : Option UserRecord :=
  boundRecord id body.prenom body.nom body.login body.password body.role

/-! ## Lemmas on the guard and the guarded handlers -/

theorem requireAuth_none (sess : Session) (next : Prog) (h : sess.user = none) :
    requireAuth sess next = .done ⟨.redirect "/login", sess⟩ := by
  simp [requireAuth, h]

theorem requireAuth_some (sess : Session) (next : Prog) (h : sess.user ≠ none) :
    requireAuth sess next = next := by
  cases hu : sess.user with
  | none => exact absurd hu h
  | some u => simp [requireAuth, hu]

theorem writeFailure_ne_redirect (err : DbError) (loc : String) :
    writeFailure err ≠ .redirect loc := by
  unfold writeFailure
  split <;> simp

/-- A guarded handler never answers with a redirect. -/
theorem handler_response_ne_redirect {σ : Type} (db : Gateway σ) (st : σ)
    (req : GuardedRequest) (sess : Session) (loc : String) :
    (run db st (req.handler sess)).response ≠ .redirect loc := by
  cases req with
  | usersPage => simp [GuardedRequest.handler, getUsersPage, run]
  | listUsers search =>
      simp only [GuardedRequest.handler, getApiUsers]
      split <;> (simp only [run]; split <;> simp)
  | createUser body =>
      simp only [GuardedRequest.handler, postApiUsers]
      split
      · simp [run]
      · simp only [run]
        split
        · simp
        · exact writeFailure_ne_redirect _ _
  | updateUser id body =>
      simp only [GuardedRequest.handler, putApiUser]
      split
      · simp [run]
      · simp only [run]
        split
        · simp
        · exact writeFailure_ne_redirect _ _
  | deleteUser id =>
      simp only [GuardedRequest.handler, deleteApiUser, run]
      split <;> simp

/-- A guarded handler hands the session back as it got it. -/
theorem handler_session {σ : Type} (db : Gateway σ) (st : σ)
    (req : GuardedRequest) (sess : Session) :
    (run db st (req.handler sess)).session = sess := by
  cases req with
  | usersPage => simp [GuardedRequest.handler, getUsersPage, run]
  | listUsers search =>
      simp only [GuardedRequest.handler, getApiUsers]
      split <;> (simp only [run]; split <;> simp)
  | createUser body =>
      simp only [GuardedRequest.handler, postApiUsers]
      split
      · simp [run]
      · simp only [run]
        split <;> simp
  | updateUser id body =>
      simp only [GuardedRequest.handler, putApiUser]
      split
      · simp [run]
      · simp only [run]
        split <;> simp
  | deleteUser id =>
      simp only [GuardedRequest.handler, deleteApiUser, run]
      split <;> simp

/-- The response, the store and the statements of a guarded handler are the
same whatever session it is given. -/
theorem handler_session_irrelevant {σ : Type} (db : Gateway σ) (st : σ)
    (req : GuardedRequest) (sess sess' : Session) :
    (run db st (req.handler sess)).response = (run db st (req.handler sess')).response ∧
    (run db st (req.handler sess)).store = (run db st (req.handler sess')).store ∧
    (run db st (req.handler sess)).trace = (run db st (req.handler sess')).trace := by
  cases req with
  | usersPage => simp [GuardedRequest.handler, getUsersPage, run]
  | listUsers search =>
      simp only [GuardedRequest.handler, getApiUsers]
      split <;> (simp only [run]; split <;> simp)
  | createUser body =>
      simp only [GuardedRequest.handler, postApiUsers]
      split
      · simp [run]
      · simp only [run]
        split <;> simp
  | updateUser id body =>
      simp only [GuardedRequest.handler, putApiUser]
      split
      · simp [run]
      · simp only [run]
        split <;> simp
  | deleteUser id =>
      simp only [GuardedRequest.handler, deleteApiUser, run]
      split <;> simp

/-! ## The authentication gate -/

/-- C1: on every guarded route, `requireAuth` answers with a redirect to
`/login` exactly when the session has no session-user, and then the handler
does not run: no statement is issued and the store and the session are
unchanged.  With a session-user the request reaches the handler as it is, and
the response, the store effect and the statements issued are the same for any
two authenticated sessions, so they do not depend on the role. -/
theorem C1_requireAuth_gate {σ : Type} (db : Gateway σ) (st : σ)
    (req : GuardedRequest) (sess : Session) :
    ((run db st (req.route sess)).response = .redirect "/login" ↔ sess.user = none) ∧
    (sess.user = none →
      req.route sess = .done ⟨.redirect "/login", sess⟩ ∧
      (run db st (req.route sess)).trace = [] ∧
      (run db st (req.route sess)).store = st ∧
      (run db st (req.route sess)).session = sess) ∧
    (sess.user ≠ none → req.route sess = req.handler sess) ∧
    (∀ sess' : Session, sess.user ≠ none → sess'.user ≠ none →
      (run db st (req.route sess)).response = (run db st (req.route sess')).response ∧
      (run db st (req.route sess)).store = (run db st (req.route sess')).store ∧
      (run db st (req.route sess)).trace = (run db st (req.route sess')).trace) := by
  refine ⟨?_, ?_, ?_, ?_⟩
  · constructor
    · intro h
      by_contra hne
      rw [GuardedRequest.route, requireAuth_some _ _ hne] at h
      exact handler_response_ne_redirect db st req sess _ h
    · intro h
      simp [GuardedRequest.route, requireAuth_none _ _ h, run]
  · intro h
    simp [GuardedRequest.route, requireAuth_none _ _ h, run]
  · intro h
    simp [GuardedRequest.route, requireAuth_some _ _ h]
  · intro sess' h h'
    simp only [GuardedRequest.route, requireAuth_some _ _ h, requireAuth_some _ _ h']
    exact handler_session_irrelevant db st req sess sess'

/-- C1 witness: a delete request on the modelled store, without a session-user
and with session-users of two different roles. -/
theorem C1_requireAuth_gate_witness :
    (run mysql ⟨[], 1⟩ ((GuardedRequest.deleteUser "4").route ⟨none⟩)).trace = [] ∧
    (GuardedRequest.deleteUser "4").route ⟨some ⟨1, "Ana", "Diaz", "admin"⟩⟩ =
      (GuardedRequest.deleteUser "4").handler ⟨some ⟨1, "Ana", "Diaz", "admin"⟩⟩ ∧
    (run mysql ⟨[], 1⟩ ((GuardedRequest.deleteUser "4").route
        ⟨some ⟨1, "Ana", "Diaz", "admin"⟩⟩)).response =
      (run mysql ⟨[], 1⟩ ((GuardedRequest.deleteUser "4").route
        ⟨some ⟨2, "Bob", "Roy", "user"⟩⟩)).response :=
  ⟨((C1_requireAuth_gate mysql ⟨[], 1⟩ (.deleteUser "4") ⟨none⟩).2.1 rfl).2.1,
   (C1_requireAuth_gate mysql ⟨[], 1⟩ (.deleteUser "4") ⟨some ⟨1, "Ana", "Diaz", "admin"⟩⟩).2.2.1
     (by decide),
   ((C1_requireAuth_gate mysql ⟨[], 1⟩ (.deleteUser "4") ⟨some ⟨1, "Ana", "Diaz", "admin"⟩⟩).2.2.2
     ⟨some ⟨2, "Bob", "Roy", "user"⟩⟩ (by decide) (by decide)).1⟩

/-! ## Login -/

theorem filter_head_find {α : Type} (p : α → Bool) :
    ∀ (l : List α) (a : α) (rest : List α), l.filter p = a :: rest → l.find? p = some a := by
  intro l
  induction l with
  | nil => intro a rest h; simp at h
  | cons x xs ih =>
      intro a rest h
      by_cases hx : p x = true
      · simp [List.filter_cons, hx] at h
        obtain ⟨rfl, _⟩ := h
        simp [List.find?_cons, hx]
      · simp [List.filter_cons, hx] at h
        simp [List.find?_cons, hx, ih a rest h]

/-- What the login handler does on the modelled store, by the rows the lookup
returns. -/
theorem run_postLogin (t : Table) (body : LoginBody) (sess : Session) :
    run mysql t (postLogin body sess) =
      match t.rows.filter body.matchesRecord with
      | [] => ⟨.redirect "/login?error=1", sess, t,
          [⟨"SELECT * FROM utilisateur WHERE login = ? AND password = ?",
            [body.login, body.password]⟩]⟩
      | r :: _ => ⟨.redirect "/users", ⟨some r.sessionUser⟩, t,
          [⟨"SELECT * FROM utilisateur WHERE login = ? AND password = ?",
            [body.login, body.password]⟩]⟩ := by
  have hf : (t.rows.filter fun r => eqParam body.login r.login && eqParam body.password r.password)
      = t.rows.filter body.matchesRecord := by
    congr 1
    funext r
    simp [LoginBody.matchesRecord, eqParam]
  simp only [postLogin, run, mysql, Table.select]
  simp only [String.reduceEq, if_false, if_true, hf]
  cases t.rows.filter body.matchesRecord with
  | nil => rfl
  | cons r rest => rfl

/-- C2: if some stored record holds exactly the submitted login and password,
`POST /login` sets the session-user to the `{id, prenom, nom, role}`
projection of the first such record, redirects to `/users`, and every guarded
route then lets that session through to its handler; if no stored record
holds them, it redirects to `/login?error=1` and leaves the session as it
was. -/
theorem C2_login (t : Table) (body : LoginBody) (sess : Session) :
    ((∃ r ∈ t.rows, sqlText body.login = some r.login ∧
        sqlText body.password = some r.password) →
      ∃ first, t.rows.find? body.matchesRecord = some first ∧
        (run mysql t (postLogin body sess)).response = .redirect "/users" ∧
        (run mysql t (postLogin body sess)).session = ⟨some first.sessionUser⟩ ∧
        ∀ (req : GuardedRequest) (t' : Table),
          req.route (run mysql t (postLogin body sess)).session =
            req.handler (run mysql t (postLogin body sess)).session ∧
          (run mysql t' (req.route (run mysql t (postLogin body sess)).session)).response ≠
            .redirect "/login") ∧
    ((¬ ∃ r ∈ t.rows, sqlText body.login = some r.login ∧
        sqlText body.password = some r.password) →
      (run mysql t (postLogin body sess)).response = .redirect "/login?error=1" ∧
      (run mysql t (postLogin body sess)).session = sess) := by
  rw [run_postLogin]
  constructor
  · rintro ⟨r, hr, hl, hp⟩
    cases hf : t.rows.filter body.matchesRecord with
    | nil =>
        rw [List.filter_eq_nil_iff] at hf
        exact absurd (by simp [LoginBody.matchesRecord, hl, hp]) (hf r hr)
    | cons first rest =>
        refine ⟨first, filter_head_find _ _ _ _ hf, rfl, rfl, ?_⟩
        intro req t'
        have hs : (⟨some first.sessionUser⟩ : Session).user ≠ none := by simp
        refine ⟨by simp [GuardedRequest.route, requireAuth_some _ _ hs], ?_⟩
        simp only [GuardedRequest.route, requireAuth_some _ _ hs]
        exact handler_response_ne_redirect mysql t' req _ _
  · intro hno
    cases hf : t.rows.filter body.matchesRecord with
    | nil => exact ⟨rfl, rfl⟩
    | cons first rest =>
        exfalso
        have hm : first ∈ t.rows.filter body.matchesRecord := by simp [hf]
        rw [List.mem_filter] at hm
        apply hno
        refine ⟨first, hm.1, ?_⟩
        simpa [LoginBody.matchesRecord] using hm.2

/-- C2 witness: a table with two records holding the same credentials, where
the first one is taken, and a login no record holds. -/
theorem C2_login_witness :
    (run mysql ⟨[⟨1, "Ana", "Diaz", "ana", "pw", "admin"⟩,
        ⟨2, "Bob", "Roy", "bob", "x", "user"⟩], 3⟩
        (postLogin ⟨.str "bob", .str "x"⟩ ⟨none⟩)).response = .redirect "/users" ∧
    (run mysql ⟨[⟨1, "Ana", "Diaz", "ana", "pw", "admin"⟩,
        ⟨2, "Bob", "Roy", "bob", "x", "user"⟩], 3⟩
        (postLogin ⟨.str "bob", .str "pw"⟩ ⟨none⟩)).response = .redirect "/login?error=1" := by
  have h1 := (C2_login ⟨[⟨1, "Ana", "Diaz", "ana", "pw", "admin"⟩,
    ⟨2, "Bob", "Roy", "bob", "x", "user"⟩], 3⟩ ⟨.str "bob", .str "x"⟩ ⟨none⟩).1
    ⟨⟨2, "Bob", "Roy", "bob", "x", "user"⟩, by decide, by decide, by decide⟩
  have h2 := (C2_login ⟨[⟨1, "Ana", "Diaz", "ana", "pw", "admin"⟩,
    ⟨2, "Bob", "Roy", "bob", "x", "user"⟩], 3⟩ ⟨.str "bob", .str "pw"⟩ ⟨none⟩).2 (by decide)
  obtain ⟨_, _, hr, _⟩ := h1
  exact ⟨hr, h2.1⟩

/-! ## Logout -/

/-- A login that is not answered with the redirect to `/users` leaves the
session as it was. -/
theorem postLogin_failure_session {σ : Type} (db : Gateway σ) (st : σ)
    (body : LoginBody) (sess : Session)
    (h : (run db st (postLogin body sess)).response ≠ .redirect "/users") :
    (run db st (postLogin body sess)).session = sess := by
  simp only [postLogin, run] at h ⊢
  split <;> simp_all

/-- Without a session-user and without a successful login, the session stays
without a user and every guarded request is redirected to `/login`. -/
theorem serveAll_unauthenticated {σ : Type} (db : Gateway σ) :
    ∀ (rs : List Request) (sess : Session) (st : σ), sess.user = none →
      (∀ p ∈ serveAll db sess st rs, isLoginSuccess p = false) →
      ∀ (req : GuardedRequest) (resp : Response),
        (Request.guarded req, resp) ∈ serveAll db sess st rs → resp = .redirect "/login" := by
  intro rs
  induction rs with
  | nil => intro sess st _ _ req resp h; simp [serveAll] at h
  | cons r rest ih =>
      intro sess st hs hno req resp hmem
      simp only [serveAll, List.mem_cons] at hmem hno
      have hnext : (run db st (r.route sess)).session.user = none := by
        cases r with
        | login body =>
            have h0 := hno (Request.login body, (run db st (postLogin body sess)).response)
              (Or.inl rfl)
            have hne : (run db st (postLogin body sess)).response ≠ .redirect "/users" := by
              intro he
              rw [he] at h0
              simp [isLoginSuccess] at h0
            simp only [Request.route]
            rw [postLogin_failure_session db st body sess hne]
            exact hs
        | logout => simp [Request.route, getLogout, run, Session.destroy]
        | guarded g =>
            simp [Request.route, GuardedRequest.route, requireAuth_none _ _ hs, run, hs]
      rcases hmem with hhead | htail
      · cases r with
        | login body => simp at hhead
        | logout => simp at hhead
        | guarded g =>
            simp only [Prod.mk.injEq, Request.guarded.injEq] at hhead
            rw [hhead.2]
            simp [Request.route, GuardedRequest.route, requireAuth_none _ _ hs, run]
      · exact ih _ _ hnext (fun p hp => hno p (Or.inr hp)) req resp htail

/-- C3: for every session, `GET /logout` destroys the session and answers with
the redirect to `/login`; in any sequence of later requests on that session
that holds no successful login, every request to a guarded route is answered
with the redirect to `/login`; and a second logout gives the same session and
the same response as the first. -/
theorem C3_logout {σ : Type} (db : Gateway σ) (st : σ) (sess : Session) :
    (run db st (getLogout sess)).response = .redirect "/login" ∧
    (run db st (getLogout sess)).session = sess.destroy ∧
    (run db st (getLogout sess)).session.user = none ∧
    (∀ (rs : List Request) (st' : σ),
      (∀ p ∈ serveAll db (run db st (getLogout sess)).session st' rs, isLoginSuccess p = false) →
      ∀ (req : GuardedRequest) (resp : Response),
        (Request.guarded req, resp) ∈ serveAll db (run db st (getLogout sess)).session st' rs →
        resp = .redirect "/login") ∧
    (run db st (getLogout (run db st (getLogout sess)).session)).session =
      (run db st (getLogout sess)).session ∧
    (run db st (getLogout (run db st (getLogout sess)).session)).response =
      (run db st (getLogout sess)).response := by
  refine ⟨rfl, rfl, rfl, ?_, rfl, rfl⟩
  intro rs st' hno req resp hmem
  exact serveAll_unauthenticated db rs _ st' rfl hno req resp hmem

/-- C3 witness: after an administrator logs out, a failed login followed by a
list request gets the redirect to `/login`. -/
theorem C3_logout_witness :
    (run mysql ⟨[], 1⟩ ((GuardedRequest.listUsers none).route
      (run mysql ⟨[], 1⟩ (getLogout ⟨some ⟨1, "Ana", "Diaz", "admin"⟩⟩)).session)).response =
      .redirect "/login" :=
  (C3_logout mysql ⟨[], 1⟩ ⟨some ⟨1, "Ana", "Diaz", "admin"⟩⟩).2.2.2.1
    [.login ⟨.str "ana", .str "pw"⟩, .guarded (.listUsers none)] ⟨[], 1⟩
    (by decide) (.listUsers none) _ (by decide)

/-! ## Presence validation of the create and update handlers -/

theorem absentOrEmpty_not_truthy (v : JsValue) (h : v.absentOrEmpty = true) :
    v.truthy = false := by
  cases v <;> simp_all [JsValue.absentOrEmpty, JsValue.truthy]

theorem missingField_false_iff (body : UserBody) :
    body.missingField = false ↔
      body.prenom.truthy = true ∧ body.nom.truthy = true ∧ body.login.truthy = true ∧
        body.password.truthy = true ∧ body.role.truthy = true := by
  simp [UserBody.missingField, and_assoc]

theorem writeFailure_ne_missing (err : DbError) :
    writeFailure err ≠ .json 400 (.error "Tous les champs sont obligatoires") := by
  unfold writeFailure
  split <;> simp

/-- C4, as stated, fails: a create request whose five fields are all present
and none of them empty, with the number `0` as `prenom`, is rejected with the
missing-field error. -/
theorem C4_counterexample_zero_field :
    (UserBody.mk (.num 0) (.str "Diaz") (.str "ana") (.str "pw") (.str "admin")).someAbsentOrEmpty
      = false ∧
    (run mysql ⟨[], 1⟩ ((GuardedRequest.createUser
        ⟨.num 0, .str "Diaz", .str "ana", .str "pw", .str "admin"⟩).route
        ⟨some ⟨1, "Ana", "Diaz", "admin"⟩⟩)).response =
      .json 400 (.error "Tous les champs sont obligatoires") := by
  decide

/-- C4, amended: for every authenticated `POST /api/users` and
`PUT /api/users/:id` request whose body has at least one of the five fields
falsy in JavaScript (absent, `null`, the empty string, `0` or `false`, which
covers every absent or empty field), the response is status 400 with
`{error: 'Tous les champs sont obligatoires'}`, no statement is executed and
the store is unchanged; a body whose five fields are all truthy is never
answered with this error. -/
theorem C4_missing_field {σ : Type} (db : Gateway σ) (st : σ) (id : String)
    (body : UserBody) (sess : Session) (hauth : sess.user ≠ none) :
    (body.someAbsentOrEmpty = true → body.missingField = true) ∧
    (body.missingField = true ↔
      (body.prenom.truthy = false ∨ body.nom.truthy = false ∨ body.login.truthy = false ∨
        body.password.truthy = false ∨ body.role.truthy = false)) ∧
    (body.missingField = true →
      run db st ((GuardedRequest.createUser body).route sess) =
        ⟨.json 400 (.error "Tous les champs sont obligatoires"), sess, st, []⟩ ∧
      run db st ((GuardedRequest.updateUser id body).route sess) =
        ⟨.json 400 (.error "Tous les champs sont obligatoires"), sess, st, []⟩) ∧
    (body.missingField = false →
      (run db st ((GuardedRequest.createUser body).route sess)).response ≠
        .json 400 (.error "Tous les champs sont obligatoires") ∧
      (run db st ((GuardedRequest.updateUser id body).route sess)).response ≠
        .json 400 (.error "Tous les champs sont obligatoires")) := by
  refine ⟨?_, ?_, ?_, ?_⟩
  · intro h
    simp only [UserBody.someAbsentOrEmpty, Bool.or_eq_true] at h
    simp only [UserBody.missingField, Bool.or_eq_true, Bool.not_eq_true']
    rcases h with (((h | h) | h) | h) | h
    · exact Or.inl (Or.inl (Or.inl (Or.inl (absentOrEmpty_not_truthy _ h))))
    · exact Or.inl (Or.inl (Or.inl (Or.inr (absentOrEmpty_not_truthy _ h))))
    · exact Or.inl (Or.inl (Or.inr (absentOrEmpty_not_truthy _ h)))
    · exact Or.inl (Or.inr (absentOrEmpty_not_truthy _ h))
    · exact Or.inr (absentOrEmpty_not_truthy _ h)
  · simp [UserBody.missingField, or_assoc]
  · intro h
    simp [GuardedRequest.route, requireAuth_some _ _ hauth, GuardedRequest.handler,
      postApiUsers, putApiUser, h, run]
  · intro h
    simp only [GuardedRequest.route, requireAuth_some _ _ hauth, GuardedRequest.handler,
      postApiUsers, putApiUser, h, run]
    constructor
    · simp only [Bool.false_eq_true, if_false]
      split
      · simp
      · exact writeFailure_ne_missing _
    · simp only [Bool.false_eq_true, if_false]
      split
      · simp
      · exact writeFailure_ne_missing _

/-- C4 witness: an update whose `role` is the empty string, and a create with
five non-empty strings. -/
theorem C4_missing_field_witness :
    run mysql ⟨[], 1⟩ ((GuardedRequest.updateUser "3"
        ⟨.str "Ana", .str "Diaz", .str "ana", .str "pw", .str ""⟩).route
        ⟨some ⟨1, "Ana", "Diaz", "admin"⟩⟩) =
      ⟨.json 400 (.error "Tous les champs sont obligatoires"),
        ⟨some ⟨1, "Ana", "Diaz", "admin"⟩⟩, ⟨[], 1⟩, []⟩ ∧
    (run mysql ⟨[], 1⟩ ((GuardedRequest.createUser
        ⟨.str "Ana", .str "Diaz", .str "ana", .str "pw", .str "admin"⟩).route
        ⟨some ⟨1, "Ana", "Diaz", "admin"⟩⟩)).response ≠
      .json 400 (.error "Tous les champs sont obligatoires") :=
  ⟨((C4_missing_field mysql ⟨[], 1⟩ "3" ⟨.str "Ana", .str "Diaz", .str "ana", .str "pw", .str ""⟩
      ⟨some ⟨1, "Ana", "Diaz", "admin"⟩⟩ (by decide)).2.2.1 (by decide)).2,
   ((C4_missing_field mysql ⟨[], 1⟩ "3"
      ⟨.str "Ana", .str "Diaz", .str "ana", .str "pw", .str "admin"⟩
      ⟨some ⟨1, "Ana", "Diaz", "admin"⟩⟩ (by decide)).2.2.2 (by decide)).1⟩

/-! ## Writes on the modelled store -/

theorem truthy_sqlText (v : JsValue) (h : v.truthy = true) : ∃ s, sqlText v = some s := by
  cases v with
  | undefined => simp [JsValue.truthy] at h
  | null => simp [JsValue.truthy] at h
  | bool b => exact ⟨_, rfl⟩
  | num n => exact ⟨_, rfl⟩
  | str s => exact ⟨_, rfl⟩

/-- A body that passes the presence test describes a record: each column is
the text of the submitted value. -/
theorem record_of_populated (body : UserBody) (id : Nat) (h : body.missingField = false) :
    ∃ new, body.record id = some new ∧ new.id = id ∧
      sqlText body.prenom = some new.prenom ∧ sqlText body.nom = some new.nom ∧
      sqlText body.login = some new.login ∧ sqlText body.password = some new.password ∧
      sqlText body.role = some new.role := by
  rw [missingField_false_iff] at h
  obtain ⟨h1, h2, h3, h4, h5⟩ := h
  obtain ⟨p, hp⟩ := truthy_sqlText _ h1
  obtain ⟨n, hn⟩ := truthy_sqlText _ h2
  obtain ⟨l, hl⟩ := truthy_sqlText _ h3
  obtain ⟨w, hw⟩ := truthy_sqlText _ h4
  obtain ⟨r, hr⟩ := truthy_sqlText _ h5
  exact ⟨⟨id, p, n, l, w, r⟩, by simp [UserBody.record, boundRecord, hp, hn, hl, hw, hr],
    rfl, hp, hn, hl, hw, hr⟩

/-- The create handler on the modelled store, for a body that passes the
presence test. -/
theorem run_postApiUsers (t : Table) (body : UserBody) (sess : Session) (new : UserRecord)
    (hfull : body.missingField = false) (hnew : body.record t.nextId = some new) :
    (run mysql t (postApiUsers body sess)).response =
        (if t.rows.any (fun r => r.login = new.login) then
          .json 400 (.error "Ce login existe déjà")
        else .json 201 (.message "Utilisateur créé")) ∧
    (run mysql t (postApiUsers body sess)).store =
        (if t.rows.any (fun r => r.login = new.login) then t
        else ⟨t.rows ++ [new], t.nextId + 1⟩) ∧
    (run mysql t (postApiUsers body sess)).session = sess := by
  simp only [UserBody.record] at hnew
  by_cases hdup : (t.rows.any fun r => r.login = new.login) = true
  · simp only [hdup, if_true]
    simp only [List.any_eq_true, decide_eq_true_eq] at hdup
    simp [postApiUsers, hfull, run, mysql, Table.exec, hnew, hdup, writeFailure]
  · simp only [hdup, if_false]
    simp only [List.any_eq_true, decide_eq_true_eq] at hdup
    simp [postApiUsers, hfull, run, mysql, Table.exec, hnew, hdup]

/-- The update handler on the modelled store, for a body that passes the
presence test: `new` holds the five bound columns. -/
theorem run_putApiUser (t : Table) (id : String) (body : UserBody) (sess : Session)
    (new : UserRecord) (hfull : body.missingField = false) (hnew : body.record 0 = some new) :
    (run mysql t (putApiUser id body sess)).response =
        (if (t.rows.any fun r => idParam (.str id) r.id) &&
            (t.rows.any fun r => !idParam (.str id) r.id && r.login = new.login) then
          .json 400 (.error "Ce login existe déjà")
        else .json 200 (.message "Utilisateur mis à jour")) ∧
    (run mysql t (putApiUser id body sess)).store =
        (if (t.rows.any fun r => idParam (.str id) r.id) &&
            (t.rows.any fun r => !idParam (.str id) r.id && r.login = new.login) then t
        else ⟨t.rows.map (overwrite (.str id) new), t.nextId⟩) ∧
    (run mysql t (putApiUser id body sess)).session = sess := by
  simp only [UserBody.record] at hnew
  by_cases hdup : ((t.rows.any fun r => idParam (.str id) r.id) &&
      (t.rows.any fun r => !idParam (.str id) r.id && r.login = new.login)) = true
  · simp only [hdup, if_true]
    simp only [putApiUser, hfull, run, mysql, Table.exec, hnew, hdup, Bool.false_eq_true,
      if_false, if_true, String.reduceEq]
    simp [writeFailure]
  · simp only [hdup, if_false]
    simp only [putApiUser, hfull, run, mysql, Table.exec, hnew, hdup, Bool.false_eq_true,
      if_false, if_true, String.reduceEq]
    simp

/-- The delete handler on the modelled store. -/
theorem run_deleteApiUser (t : Table) (id : String) (sess : Session) :
    run mysql t (deleteApiUser id sess) =
      ⟨.json 200 (.message "Utilisateur supprimé"), sess,
        ⟨t.rows.filter (fun r => !idParam (.str id) r.id), t.nextId⟩,
        [⟨"DELETE FROM utilisateur WHERE id = ?", [.str id]⟩]⟩ := by
  simp [deleteApiUser, run, mysql, Table.exec]

/-! ## Reads on the modelled store -/

/-- The list handler on the modelled store, without a search text. -/
theorem run_getApiUsers_all (t : Table) (query : Option String) (sess : Session)
    (h : query = none ∨ query = some "") :
    run mysql t (getApiUsers query sess) =
      ⟨.json 200 (.rows t.rows), sess, t, [⟨"SELECT * FROM utilisateur", []⟩]⟩ := by
  rcases h with h | h <;> subst h <;> simp [getApiUsers, run, mysql, Table.select]

/-- The list handler on the modelled store, with a search text. -/
theorem run_getApiUsers_search (t : Table) (s : String) (sess : Session) (h : s ≠ "") :
    run mysql t (getApiUsers (some s) sess) =
      ⟨.json 200 (.rows (t.rows.filter fun r =>
          like ('%' :: (s.data ++ ['%'])) r.prenom.data ||
          like ('%' :: (s.data ++ ['%'])) r.nom.data ||
          like ('%' :: (s.data ++ ['%'])) r.login.data)), sess, t,
        [⟨"SELECT * FROM utilisateur WHERE prenom LIKE ? OR nom LIKE ? OR login LIKE ?",
          [.str ("%" ++ s ++ "%"), .str ("%" ++ s ++ "%"), .str ("%" ++ s ++ "%")]⟩]⟩ := by
  have hd : ("%" ++ s ++ "%").data = '%' :: (s.data ++ ['%']) := by
    simp [String.data_append]
  simp [getApiUsers, h, run, mysql, Table.select, likeParam, sqlText, hd]

/-- Whatever the search, the list handler answers with status 200 and rows
taken from the table. -/
theorem run_getApiUsers_rows (t : Table) (query : Option String) (sess : Session) :
    ∃ listed, (run mysql t (getApiUsers query sess)).response = .json 200 (.rows listed) ∧
      ∀ r ∈ listed, r ∈ t.rows := by
  by_cases h : query = none ∨ query = some ""
  · exact ⟨t.rows, by rw [run_getApiUsers_all t query sess h], fun r hr => hr⟩
  · cases query with
    | none => exact absurd (Or.inl rfl) h
    | some s =>
        have hs : s ≠ "" := fun he => h (Or.inr (by rw [he]))
        refine ⟨_, by rw [run_getApiUsers_search t s sess hs], ?_⟩
        intro r hr
        exact (List.mem_filter.mp hr).1

/-! ## Create, update, delete -/

/-- C5: on every store state, an authenticated `POST /api/users` with all five
fields populated whose login is the login of an existing record is answered
with status 400 and `{error: 'Ce login existe déjà'}` and leaves the stored
records unchanged; `PUT /api/users/:id` answers a store failure with code
`ER_DUP_ENTRY` with the same response; and in both handlers a store failure
with any other code (or none) is answered with status 500 and the fixed body
`{error: 'Erreur serveur'}`. -/
theorem C5_write_errors {σ : Type} (db : Gateway σ) (st : σ) (t : Table) (id : String)
    (body : UserBody) (sess : Session) (hauth : sess.user ≠ none)
    (hfull : body.missingField = false) :
    ((∃ r ∈ t.rows, sqlText body.login = some r.login) →
      (run mysql t ((GuardedRequest.createUser body).route sess)).response =
        .json 400 (.error "Ce login existe déjà") ∧
      (run mysql t ((GuardedRequest.createUser body).route sess)).store = t) ∧
    (∀ stmt err, (run db st ((GuardedRequest.updateUser id body).route sess)).trace = [stmt] →
      db.exec st stmt = .error err → err.code = some "ER_DUP_ENTRY" →
      (run db st ((GuardedRequest.updateUser id body).route sess)).response =
        .json 400 (.error "Ce login existe déjà") ∧
      (run db st ((GuardedRequest.updateUser id body).route sess)).store = st) ∧
    (∀ stmt err, (run db st ((GuardedRequest.createUser body).route sess)).trace = [stmt] →
      db.exec st stmt = .error err → err.code ≠ some "ER_DUP_ENTRY" →
      (run db st ((GuardedRequest.createUser body).route sess)).response =
        .json 500 (.error "Erreur serveur") ∧
      (run db st ((GuardedRequest.createUser body).route sess)).store = st) ∧
    (∀ stmt err, (run db st ((GuardedRequest.updateUser id body).route sess)).trace = [stmt] →
      db.exec st stmt = .error err → err.code ≠ some "ER_DUP_ENTRY" →
      (run db st ((GuardedRequest.updateUser id body).route sess)).response =
        .json 500 (.error "Erreur serveur") ∧
      (run db st ((GuardedRequest.updateUser id body).route sess)).store = st) := by
  simp only [GuardedRequest.route, requireAuth_some _ _ hauth, GuardedRequest.handler]
  refine ⟨?_, ?_, ?_, ?_⟩
  · rintro ⟨r, hr, hl⟩
    obtain ⟨new, hnew, _, _, _, hlogin, _, _⟩ := record_of_populated body t.nextId hfull
    have hdup : (t.rows.any fun x => x.login = new.login) = true := by
      simp only [List.any_eq_true, decide_eq_true_eq]
      refine ⟨r, hr, ?_⟩
      rw [hl] at hlogin
      exact Option.some.inj hlogin
    have h := run_postApiUsers t body sess new hfull hnew
    simp only [hdup, if_true] at h
    exact ⟨h.1, h.2.1⟩
  · intro stmt err htrace hexec hcode
    simp only [putApiUser, hfull, run, Bool.false_eq_true, if_false] at htrace ⊢
    split at htrace <;>
      (simp only [List.cons.injEq, and_true] at htrace; subst htrace; simp_all [writeFailure])
  · intro stmt err htrace hexec hcode
    simp only [postApiUsers, hfull, run, Bool.false_eq_true, if_false] at htrace ⊢
    split at htrace <;>
      (simp only [List.cons.injEq, and_true] at htrace; subst htrace; simp_all [writeFailure])
  · intro stmt err htrace hexec hcode
    simp only [putApiUser, hfull, run, Bool.false_eq_true, if_false] at htrace ⊢
    split at htrace <;>
      (simp only [List.cons.injEq, and_true] at htrace; subst htrace; simp_all [writeFailure])

/-- C5 witness: a create and an update that collide with the login `ana` on
the modelled store, and a create and an update against an offline store. -/
theorem C5_write_errors_witness :
    (run mysql ⟨[⟨1, "Ana", "Diaz", "ana", "pw", "admin"⟩, ⟨2, "Bob", "Roy", "bob", "x", "user"⟩], 3⟩
        ((GuardedRequest.createUser ⟨.str "Al", .str "Ba", .str "ana", .str "k", .str "user"⟩).route
          ⟨some ⟨1, "Ana", "Diaz", "admin"⟩⟩)).response =
      .json 400 (.error "Ce login existe déjà") ∧
    (run mysql ⟨[⟨1, "Ana", "Diaz", "ana", "pw", "admin"⟩, ⟨2, "Bob", "Roy", "bob", "x", "user"⟩], 3⟩
        ((GuardedRequest.updateUser "2"
          ⟨.str "Al", .str "Ba", .str "ana", .str "k", .str "user"⟩).route
          ⟨some ⟨1, "Ana", "Diaz", "admin"⟩⟩)).response =
      .json 400 (.error "Ce login existe déjà") ∧
    (run offline ⟨[], 1⟩
        ((GuardedRequest.createUser ⟨.str "Al", .str "Ba", .str "ana", .str "k", .str "user"⟩).route
          ⟨some ⟨1, "Ana", "Diaz", "admin"⟩⟩)).response =
      .json 500 (.error "Erreur serveur") ∧
    (run offline ⟨[], 1⟩
        ((GuardedRequest.updateUser "2"
          ⟨.str "Al", .str "Ba", .str "ana", .str "k", .str "user"⟩).route
          ⟨some ⟨1, "Ana", "Diaz", "admin"⟩⟩)).response =
      .json 500 (.error "Erreur serveur") :=
  ⟨((C5_write_errors mysql
      ⟨[⟨1, "Ana", "Diaz", "ana", "pw", "admin"⟩, ⟨2, "Bob", "Roy", "bob", "x", "user"⟩], 3⟩
      ⟨[⟨1, "Ana", "Diaz", "ana", "pw", "admin"⟩, ⟨2, "Bob", "Roy", "bob", "x", "user"⟩], 3⟩ "2"
      ⟨.str "Al", .str "Ba", .str "ana", .str "k", .str "user"⟩
      ⟨some ⟨1, "Ana", "Diaz", "admin"⟩⟩ (by decide) (by decide)).1
      ⟨⟨1, "Ana", "Diaz", "ana", "pw", "admin"⟩, by decide, by decide⟩).1,
   ((C5_write_errors mysql
      ⟨[⟨1, "Ana", "Diaz", "ana", "pw", "admin"⟩, ⟨2, "Bob", "Roy", "bob", "x", "user"⟩], 3⟩
      ⟨[], 1⟩ "2" ⟨.str "Al", .str "Ba", .str "ana", .str "k", .str "user"⟩
      ⟨some ⟨1, "Ana", "Diaz", "admin"⟩⟩ (by decide) (by decide)).2.1
      _ ⟨some "ER_DUP_ENTRY", "ana"⟩ rfl rfl rfl).1,
   ((C5_write_errors offline ⟨[], 1⟩ ⟨[], 1⟩ "2"
      ⟨.str "Al", .str "Ba", .str "ana", .str "k", .str "user"⟩
      ⟨some ⟨1, "Ana", "Diaz", "admin"⟩⟩ (by decide) (by decide)).2.2.1
      _ ⟨some "ECONNREFUSED", "connect"⟩ rfl rfl (by decide)).1,
   ((C5_write_errors offline ⟨[], 1⟩ ⟨[], 1⟩ "2"
      ⟨.str "Al", .str "Ba", .str "ana", .str "k", .str "user"⟩
      ⟨some ⟨1, "Ana", "Diaz", "admin"⟩⟩ (by decide) (by decide)).2.2.2
      _ ⟨some "ECONNREFUSED", "connect"⟩ rfl rfl (by decide)).1⟩

/-- C6: on every store state, an authenticated `POST /api/users` with all five
fields populated and a login no existing record has is answered with status
201 and exactly `{message: 'Utilisateur créé'}`; exactly one record, holding
the submitted prenom, nom, login, password and role, is added after the
previous records, which are unchanged; and a following authenticated
`GET /api/users` without a search returns a list that contains the new
record. -/
theorem C6_create (t : Table) (body : UserBody) (sess : Session) (hauth : sess.user ≠ none)
    (hfull : body.missingField = false)
    (hfresh : ∀ r ∈ t.rows, sqlText body.login ≠ some r.login) :
    ∃ new : UserRecord,
      sqlText body.prenom = some new.prenom ∧ sqlText body.nom = some new.nom ∧
      sqlText body.login = some new.login ∧ sqlText body.password = some new.password ∧
      sqlText body.role = some new.role ∧
      (run mysql t ((GuardedRequest.createUser body).route sess)).response =
        .json 201 (.message "Utilisateur créé") ∧
      (run mysql t ((GuardedRequest.createUser body).route sess)).store.rows =
        t.rows ++ [new] ∧
      ∃ listed,
        (run mysql (run mysql t ((GuardedRequest.createUser body).route sess)).store
          ((GuardedRequest.listUsers none).route sess)).response = .json 200 (.rows listed) ∧
        new ∈ listed := by
  simp only [GuardedRequest.route, requireAuth_some _ _ hauth, GuardedRequest.handler]
  obtain ⟨new, hnew, _, hp, hn, hl, hw, hr⟩ := record_of_populated body t.nextId hfull
  have hdup : (t.rows.any fun x => x.login = new.login) = false := by
    rw [Bool.eq_false_iff]
    intro h
    simp only [List.any_eq_true, decide_eq_true_eq] at h
    obtain ⟨r, hmem, heq⟩ := h
    exact hfresh r hmem (by rw [hl, heq])
  have h := run_postApiUsers t body sess new hfull hnew
  simp only [hdup, Bool.false_eq_true, if_false] at h
  refine ⟨new, hp, hn, hl, hw, hr, h.1, by rw [h.2.1], ?_⟩
  rw [h.2.1, run_getApiUsers_all _ none sess (Or.inl rfl)]
  exact ⟨_, rfl, by simp⟩

/-- C6 witness: a third user is created next to two existing ones. -/
theorem C6_create_witness :
    (run mysql ⟨[⟨1, "Ana", "Diaz", "ana", "pw", "admin"⟩, ⟨2, "Bob", "Roy", "bob", "x", "user"⟩], 3⟩
        ((GuardedRequest.createUser ⟨.str "Al", .str "Ba", .str "al", .str "k", .str "user"⟩).route
          ⟨some ⟨1, "Ana", "Diaz", "admin"⟩⟩)).response =
      .json 201 (.message "Utilisateur créé") := by
  obtain ⟨_, _, _, _, _, _, h, _⟩ := C6_create
    ⟨[⟨1, "Ana", "Diaz", "ana", "pw", "admin"⟩, ⟨2, "Bob", "Roy", "bob", "x", "user"⟩], 3⟩
    ⟨.str "Al", .str "Ba", .str "al", .str "k", .str "user"⟩
    ⟨some ⟨1, "Ana", "Diaz", "admin"⟩⟩ (by decide) (by decide) (by decide)
  exact h

/-- C8: on every store state, for every path id and every authenticated
`PUT /api/users/:id` with all five fields populated whose login no record
with another id has, the response is status 200 with
`{message: 'Utilisateur mis à jour'}`; a record with that id keeps its id and
holds exactly the submitted prenom, nom, login, password and role, every
other record is unchanged, and when no record has that id no record is
changed. -/
theorem C8_update (t : Table) (id : String) (body : UserBody) (sess : Session)
    (hauth : sess.user ≠ none) (hfull : body.missingField = false)
    (hfree : ∀ r ∈ t.rows, sqlId (.str id) ≠ some r.id → sqlText body.login ≠ some r.login) :
    ∃ prenom nom login password role : String,
      sqlText body.prenom = some prenom ∧ sqlText body.nom = some nom ∧
      sqlText body.login = some login ∧ sqlText body.password = some password ∧
      sqlText body.role = some role ∧
      (run mysql t ((GuardedRequest.updateUser id body).route sess)).response =
        .json 200 (.message "Utilisateur mis à jour") ∧
      (run mysql t ((GuardedRequest.updateUser id body).route sess)).store.rows =
        t.rows.map (fun r =>
          if sqlId (.str id) = some r.id then ⟨r.id, prenom, nom, login, password, role⟩
          else r) ∧
      ((∀ r ∈ t.rows, sqlId (.str id) ≠ some r.id) →
        (run mysql t ((GuardedRequest.updateUser id body).route sess)).store = t) := by
  simp only [GuardedRequest.route, requireAuth_some _ _ hauth, GuardedRequest.handler]
  obtain ⟨new, hnew, _, hp, hn, hl, hw, hr⟩ := record_of_populated body 0 hfull
  have hdup : ((t.rows.any fun r => idParam (.str id) r.id) &&
      (t.rows.any fun r => !idParam (.str id) r.id && r.login = new.login)) = false := by
    rw [Bool.eq_false_iff]
    intro h
    simp only [Bool.and_eq_true, List.any_eq_true, decide_eq_true_eq, Bool.not_eq_true',
      idParam, decide_eq_false_iff_not] at h
    obtain ⟨_, r, hmem, hne, heq⟩ := h
    exact hfree r hmem hne (by rw [hl, heq])
  have h := run_putApiUser t id body sess new hfull hnew
  simp only [hdup, Bool.false_eq_true, if_false] at h
  have hrows : t.rows.map (overwrite (.str id) new) = t.rows.map (fun r =>
      if sqlId (.str id) = some r.id then
        ⟨r.id, new.prenom, new.nom, new.login, new.password, new.role⟩
      else r) := by
    apply List.map_congr_left
    intro r _
    simp [overwrite, idParam]
  refine ⟨new.prenom, new.nom, new.login, new.password, new.role, hp, hn, hl, hw, hr, h.1,
    by rw [h.2.1, hrows], ?_⟩
  intro hnone
  rw [h.2.1, hrows]
  have hmap : t.rows.map (fun r =>
      if sqlId (.str id) = some r.id then
        (⟨r.id, new.prenom, new.nom, new.login, new.password, new.role⟩ : UserRecord)
      else r) = t.rows := by
    conv_rhs => rw [← List.map_id t.rows]
    apply List.map_congr_left
    intro r hr
    simp [hnone r hr]
  rw [hmap]

/-- C8 witness: `PUT /api/users/2` overwrites the second of two users and
leaves the first as it was. -/
theorem C8_update_witness :
    (run mysql ⟨[⟨1, "Ana", "Diaz", "ana", "pw", "admin"⟩, ⟨2, "Bob", "Roy", "bob", "x", "user"⟩], 3⟩
        ((GuardedRequest.updateUser "2"
          ⟨.str "Al", .str "Ba", .str "bob", .str "k", .str "admin"⟩).route
          ⟨some ⟨1, "Ana", "Diaz", "admin"⟩⟩)).response =
      .json 200 (.message "Utilisateur mis à jour") ∧
    (run mysql ⟨[⟨1, "Ana", "Diaz", "ana", "pw", "admin"⟩, ⟨2, "Bob", "Roy", "bob", "x", "user"⟩], 3⟩
        ((GuardedRequest.updateUser "2"
          ⟨.str "Al", .str "Ba", .str "bob", .str "k", .str "admin"⟩).route
          ⟨some ⟨1, "Ana", "Diaz", "admin"⟩⟩)).store.rows =
      [⟨1, "Ana", "Diaz", "ana", "pw", "admin"⟩, ⟨2, "Al", "Ba", "bob", "k", "admin"⟩] := by
  obtain ⟨p, n, l, w, r, hp, hn, hl, hw, hr, hresp, hrows, _⟩ := C8_update
    ⟨[⟨1, "Ana", "Diaz", "ana", "pw", "admin"⟩, ⟨2, "Bob", "Roy", "bob", "x", "user"⟩], 3⟩ "2"
    ⟨.str "Al", .str "Ba", .str "bob", .str "k", .str "admin"⟩
    ⟨some ⟨1, "Ana", "Diaz", "admin"⟩⟩ (by decide) (by decide) (by decide)
  simp only [sqlText, Option.some.injEq] at hp hn hl hw hr
  subst hp hn hl hw hr
  exact ⟨hresp, by rw [hrows]; decide⟩

/-- C9: on every store state and for every path id, an authenticated
`DELETE /api/users/:id` is answered with status 200 and
`{message: 'Utilisateur supprimé'}` whether or not a record has that id;
afterwards no stored record has that id, the records with another id are
stored unchanged and in the same order, and a following `GET /api/users` with
any search returns no record with that id. -/
theorem C9_delete (t : Table) (id : String) (sess : Session) (hauth : sess.user ≠ none) :
    (run mysql t ((GuardedRequest.deleteUser id).route sess)).response =
      .json 200 (.message "Utilisateur supprimé") ∧
    (run mysql t ((GuardedRequest.deleteUser id).route sess)).store.rows =
      t.rows.filter (fun r => decide (sqlId (.str id) ≠ some r.id)) ∧
    (∀ r ∈ (run mysql t ((GuardedRequest.deleteUser id).route sess)).store.rows,
      sqlId (.str id) ≠ some r.id) ∧
    (∀ r ∈ t.rows, sqlId (.str id) ≠ some r.id →
      r ∈ (run mysql t ((GuardedRequest.deleteUser id).route sess)).store.rows) ∧
    (∀ search : Option String, ∃ listed,
      (run mysql (run mysql t ((GuardedRequest.deleteUser id).route sess)).store
        ((GuardedRequest.listUsers search).route sess)).response = .json 200 (.rows listed) ∧
      ∀ r ∈ listed, sqlId (.str id) ≠ some r.id) := by
  have hfilter : t.rows.filter (fun r => !idParam (.str id) r.id) =
      t.rows.filter (fun r => decide (sqlId (.str id) ≠ some r.id)) := by
    apply List.filter_congr
    intro r _
    simp [idParam]
  simp only [GuardedRequest.route, requireAuth_some _ _ hauth, GuardedRequest.handler,
    run_deleteApiUser, hfilter]
  refine ⟨trivial, trivial, ?_, ?_, ?_⟩
  · intro r hr
    simpa using (List.mem_filter.mp hr).2
  · intro r hr hne
    exact List.mem_filter.mpr ⟨hr, by simpa using hne⟩
  · intro search
    obtain ⟨listed, hresp, hsub⟩ := run_getApiUsers_rows
      ⟨t.rows.filter (fun r => decide (sqlId (.str id) ≠ some r.id)), t.nextId⟩ search sess
    refine ⟨listed, hresp, ?_⟩
    intro r hr
    simpa using (List.mem_filter.mp (hsub r hr)).2

/-- C9 witness: `DELETE /api/users/1` removes the first of two users, and
`DELETE /api/users/9`, an id no record has, is answered with the same
confirmation and removes nothing. -/
theorem C9_delete_witness :
    (run mysql ⟨[⟨1, "Ana", "Diaz", "ana", "pw", "admin"⟩, ⟨2, "Bob", "Roy", "bob", "x", "user"⟩], 3⟩
        ((GuardedRequest.deleteUser "1").route ⟨some ⟨1, "Ana", "Diaz", "admin"⟩⟩)).store.rows =
      [⟨2, "Bob", "Roy", "bob", "x", "user"⟩] ∧
    (run mysql ⟨[⟨1, "Ana", "Diaz", "ana", "pw", "admin"⟩, ⟨2, "Bob", "Roy", "bob", "x", "user"⟩], 3⟩
        ((GuardedRequest.deleteUser "9").route ⟨some ⟨1, "Ana", "Diaz", "admin"⟩⟩)).response =
      .json 200 (.message "Utilisateur supprimé") ∧
    (run mysql ⟨[⟨1, "Ana", "Diaz", "ana", "pw", "admin"⟩, ⟨2, "Bob", "Roy", "bob", "x", "user"⟩], 3⟩
        ((GuardedRequest.deleteUser "9").route ⟨some ⟨1, "Ana", "Diaz", "admin"⟩⟩)).store.rows =
      [⟨1, "Ana", "Diaz", "ana", "pw", "admin"⟩, ⟨2, "Bob", "Roy", "bob", "x", "user"⟩] :=
  ⟨(C9_delete
      ⟨[⟨1, "Ana", "Diaz", "ana", "pw", "admin"⟩, ⟨2, "Bob", "Roy", "bob", "x", "user"⟩], 3⟩ "1"
      ⟨some ⟨1, "Ana", "Diaz", "admin"⟩⟩ (by decide)).2.1,
   (C9_delete
      ⟨[⟨1, "Ana", "Diaz", "ana", "pw", "admin"⟩, ⟨2, "Bob", "Roy", "bob", "x", "user"⟩], 3⟩ "9"
      ⟨some ⟨1, "Ana", "Diaz", "admin"⟩⟩ (by decide)).1,
   (C9_delete
      ⟨[⟨1, "Ana", "Diaz", "ana", "pw", "admin"⟩, ⟨2, "Bob", "Roy", "bob", "x", "user"⟩], 3⟩ "9"
      ⟨some ⟨1, "Ana", "Diaz", "admin"⟩⟩ (by decide)).2.1⟩

/-! ## Search: the `LIKE` patterns of the list handler -/

theorem like_percent_iff (p t : List Char) :
    like ('%' :: p) t = true ↔ ∃ a s, a ++ s = t ∧ like p s = true := by
  simp only [like, if_true, List.any_eq_true, List.mem_tails]
  constructor
  · rintro ⟨s, ⟨a, ha⟩, hs⟩
    exact ⟨a, s, ha, hs⟩
  · rintro ⟨a, s, ha, hs⟩
    exact ⟨s, ⟨a, ha⟩, hs⟩

theorem like_percent_end (t : List Char) : like ['%'] t = true := by
  rw [like_percent_iff]
  exact ⟨t, [], by simp, by simp [like]⟩

/-- A run of characters without wildcard matches itself and nothing else. -/
theorem like_literal (x : List Char) (hx : ∀ c ∈ x, c ≠ '%' ∧ c ≠ '_') :
    ∀ (p t : List Char), like (x ++ p) t = true ↔ ∃ s, t = x ++ s ∧ like p s = true := by
  induction x with
  | nil => intro p t; simp
  | cons c x ih =>
      intro p t
      have hc := hx c (by simp)
      have ih' := ih (fun d hd => hx d (by simp [hd]))
      cases t with
      | nil => simp [like, hc.1]
      | cons d t =>
          have hstep : like (c :: (x ++ p)) (d :: t) = (decide (c = d) && like (x ++ p) t) := by
            simp [like, hc.1, hc.2]
          rw [List.cons_append, hstep, Bool.and_eq_true, decide_eq_true_eq, ih' p t]
          constructor
          · rintro ⟨hcd, s, ht, hs⟩
            exact ⟨s, by rw [hcd, ht, List.cons_append], hs⟩
          · rintro ⟨s, ht, hs⟩
            rw [List.cons_append, List.cons.injEq] at ht
            exact ⟨ht.1.symm, s, ht.2, hs⟩

/-- For a text without wildcard, the pattern `%text%` matches exactly the
texts that contain it. -/
theorem like_wrapped_iff (x t : String) (hx : ∀ c ∈ x.data, c ≠ '%' ∧ c ≠ '_') :
    like ('%' :: (x.data ++ ['%'])) t.data = true ↔ containsText x t := by
  rw [like_percent_iff]
  simp only [like_literal x.data hx, like_percent_end, and_true, containsText]
  constructor
  · rintro ⟨a, s, ha, s', rfl⟩
    exact ⟨a, s', by rw [← ha, List.append_assoc]⟩
  · rintro ⟨a, b, hab⟩
    exact ⟨a, x.data ++ b, by rw [← hab, List.append_assoc], b, rfl⟩

/-- C7, as stated, fails: the search `_` on a table with one record returns
that record, none of whose prenom, nom and login contains an underscore. -/
theorem C7_counterexample_underscore :
    (run mysql ⟨[⟨1, "Ana", "Diaz", "ana", "pw", "admin"⟩], 2⟩
        ((GuardedRequest.listUsers (some "_")).route ⟨some ⟨1, "Ana", "Diaz", "admin"⟩⟩)).response =
      .json 200 (.rows [⟨1, "Ana", "Diaz", "ana", "pw", "admin"⟩]) ∧
    ¬ (UserRecord.mk 1 "Ana" "Diaz" "ana" "pw" "admin").contains "_" := by
  constructor
  · decide
  · simp only [UserRecord.contains, containsText]
    decide

/-- C7, amended: on every store state, an authenticated `GET /api/users` with
an empty or absent search returns all records, and with a non-empty search
text that holds no `LIKE` wildcard (`%` or `_`) it returns exactly the records
whose prenom, nom or login contains the text as a substring, in storage
order. -/
theorem C7_search (t : Table) (query : Option String) (sess : Session)
    (hauth : sess.user ≠ none) :
    ((query = none ∨ query = some "") →
      (run mysql t ((GuardedRequest.listUsers query).route sess)).response =
        .json 200 (.rows t.rows)) ∧
    (∀ s : String, query = some s → s ≠ "" → (∀ c ∈ s.data, c ≠ '%' ∧ c ≠ '_') →
      (run mysql t ((GuardedRequest.listUsers query).route sess)).response =
        .json 200 (.rows (t.rows.filter fun r => decide (r.contains s)))) := by
  simp only [GuardedRequest.route, requireAuth_some _ _ hauth, GuardedRequest.handler]
  constructor
  · intro h
    rw [run_getApiUsers_all t query sess h]
  · intro s hq hs hlit
    subst hq
    rw [run_getApiUsers_search t s sess hs]
    simp only [Response.json.injEq, JsonBody.rows.injEq, true_and]
    apply List.filter_congr
    intro r _
    rw [Bool.eq_iff_iff]
    simp only [Bool.or_eq_true, like_wrapped_iff _ _ hlit, decide_eq_true_eq,
      UserRecord.contains, or_assoc]

/-- C7 witness: a search for `ia` and a request without search. -/
theorem C7_search_witness :
    (run mysql ⟨[⟨1, "Ana", "Diaz", "ana", "pw", "admin"⟩, ⟨2, "Bob", "Roy", "bob", "x", "user"⟩], 3⟩
        ((GuardedRequest.listUsers (some "ia")).route ⟨some ⟨1, "Ana", "Diaz", "admin"⟩⟩)).response =
      .json 200 (.rows ([⟨1, "Ana", "Diaz", "ana", "pw", "admin"⟩,
        ⟨2, "Bob", "Roy", "bob", "x", "user"⟩].filter fun r => decide (r.contains "ia"))) ∧
    (run mysql ⟨[⟨1, "Ana", "Diaz", "ana", "pw", "admin"⟩, ⟨2, "Bob", "Roy", "bob", "x", "user"⟩], 3⟩
        ((GuardedRequest.listUsers none).route ⟨some ⟨1, "Ana", "Diaz", "admin"⟩⟩)).response =
      .json 200 (.rows [⟨1, "Ana", "Diaz", "ana", "pw", "admin"⟩,
        ⟨2, "Bob", "Roy", "bob", "x", "user"⟩]) :=
  ⟨(C7_search
      ⟨[⟨1, "Ana", "Diaz", "ana", "pw", "admin"⟩, ⟨2, "Bob", "Roy", "bob", "x", "user"⟩], 3⟩
      (some "ia") ⟨some ⟨1, "Ana", "Diaz", "admin"⟩⟩ (by decide)).2 "ia" rfl (by decide)
      (by decide),
   (C7_search
      ⟨[⟨1, "Ana", "Diaz", "ana", "pw", "admin"⟩, ⟨2, "Bob", "Roy", "bob", "x", "user"⟩], 3⟩
      none ⟨some ⟨1, "Ana", "Diaz", "admin"⟩⟩ (by decide)).1 (Or.inl rfl)⟩

/-- C10: for an absent or empty search the list handler executes
`SELECT * FROM utilisateur` with no parameter; for every non-empty search text
`s` it executes that statement extended with
` WHERE prenom LIKE ? OR nom LIKE ? OR login LIKE ?` and exactly three
parameters, each the text `%`, then `s` unescaped, then `%`.  Hence some
search text holding a wildcard and some store state give a result with a
record none of whose prenom, nom and login contains that text. -/
theorem C10_query_shape {σ : Type} (db : Gateway σ) (st : σ) (sess : Session)
    (hauth : sess.user ≠ none) :
    (∀ query : Option String, (query = none ∨ query = some "") →
      (run db st ((GuardedRequest.listUsers query).route sess)).trace =
        [⟨"SELECT * FROM utilisateur", []⟩]) ∧
    (∀ s : String, s ≠ "" →
      (run db st ((GuardedRequest.listUsers (some s)).route sess)).trace =
        [⟨"SELECT * FROM utilisateur" ++ " WHERE prenom LIKE ? OR nom LIKE ? OR login LIKE ?",
          [.str ("%" ++ s ++ "%"), .str ("%" ++ s ++ "%"), .str ("%" ++ s ++ "%")]⟩]) ∧
    (∃ (s : String) (t : Table) (r : UserRecord) (listed : List UserRecord),
      (∃ c ∈ s.data, c = '%' ∨ c = '_') ∧
      (run mysql t ((GuardedRequest.listUsers (some s)).route sess)).response =
        .json 200 (.rows listed) ∧
      r ∈ listed ∧ ¬ r.contains s) := by
  simp only [GuardedRequest.route, requireAuth_some _ _ hauth, GuardedRequest.handler]
  refine ⟨?_, ?_, ?_⟩
  · intro query h
    rcases h with h | h <;> subst h <;> simp [getApiUsers, run]
  · intro s hs
    simp [getApiUsers, hs, run]
  · refine ⟨"%", ⟨[⟨2, "Bob", "Roy", "bob", "x", "user"⟩], 3⟩,
      ⟨2, "Bob", "Roy", "bob", "x", "user"⟩, [⟨2, "Bob", "Roy", "bob", "x", "user"⟩],
      ⟨'%', by decide, Or.inl rfl⟩, ?_, by simp, ?_⟩
    · rw [run_getApiUsers_search _ _ _ (by decide)]
      show Response.json 200 (.rows (List.filter _ _)) = _
      decide
    · simp only [UserRecord.contains, containsText]
      decide

/-- C10 witness: the statements issued for no search and for the search
`a_`. -/
theorem C10_query_shape_witness :
    (run mysql ⟨[], 1⟩
        ((GuardedRequest.listUsers (some "")).route ⟨some ⟨1, "Ana", "Diaz", "admin"⟩⟩)).trace =
      [⟨"SELECT * FROM utilisateur", []⟩] ∧
    (run mysql ⟨[], 1⟩
        ((GuardedRequest.listUsers (some "a_")).route ⟨some ⟨1, "Ana", "Diaz", "admin"⟩⟩)).trace =
      [⟨"SELECT * FROM utilisateur WHERE prenom LIKE ? OR nom LIKE ? OR login LIKE ?",
        [.str "%a_%", .str "%a_%", .str "%a_%"]⟩] :=
  ⟨(C10_query_shape mysql ⟨[], 1⟩ ⟨some ⟨1, "Ana", "Diaz", "admin"⟩⟩ (by decide)).1
      (some "") (Or.inr rfl),
   (C10_query_shape mysql ⟨[], 1⟩ ⟨some ⟨1, "Ana", "Diaz", "admin"⟩⟩ (by decide)).2.1
      "a_" (by decide)⟩

end GestionUsers
